import Mathlib

/-!
Verification of the TRON multisig forwarder core (`src/hooks/useForwarder.ts`).

The hook's mutable React state (`lastBalance`, `logs`, `currentSteps`,
`heartbeatCountRef`) is embedded as explicit state records; `setX` updates are
modelled as immediate sequential assignments.  Ledger RPC results and the
external-signer result are supplied as explicit inputs (`Option` for calls that
can return `null` / throw).  Balances are in Sun and modelled as `Int`
(JavaScript numbers are exact integers in this range).  Display-only
`fromSun` formatting and timestamps inside log/step detail strings are elided;
the log levels, messages and step statuses the spec talks about are kept
verbatim.
-/

namespace Forwarder

/-- `LogEntry['level']` from `src/types/tron.ts`. -/
inductive LogLevel where
  | INFO
  | SUCCESS
  | WARNING
  | ERROR
  | DETECTION
  | SIGNATURE
  | BROADCAST
  | BALANCE
  deriving DecidableEq, Repr

/-- A structured activity-log entry (id/timestamp/details elided: the spec's
claims are about level, message, order and count). -/
structure LogEntry where
  level : LogLevel
  message : String
  deriving DecidableEq, Repr

/-- `addLog`: `setLogs(prev => [logEntry, ...prev].slice(0, 100))` —
prepend the new entry, keep the first (most recent) 100. -/
def addLog (entry : LogEntry) (prev : List LogEntry) : List LogEntry :=
  (entry :: prev).take 100

/-- `MultisigStatus` from `src/types/tron.ts`. -/
structure MultisigStatus where
  isConfigured : Bool
  threshold : Int
  keyCount : Nat
  hasReceivingKey : Bool
  hasApprovingKey : Bool
  deriving DecidableEq, Repr

/-- One entry of `active_permission[i].keys`. -/
structure PermissionKey where
  address : String
  deriving DecidableEq, Repr

/-- One entry of `accountInfo.active_permission`. -/
structure ActivePermission where
  threshold : Int
  keys : List PermissionKey
  deriving DecidableEq, Repr

/-- The status computation of `verifyMultisigSetup` (lines 147–170): the
default all-false status, overwritten from `active_permission[0]` when the
account has a non-empty `active_permission` list.  Note the source computes
`isConfigured` from threshold and key count alone. -/
def computeMultisigStatus (activePermissions : List ActivePermission)
    (receivingAddress approvingAddress : String) : MultisigStatus :=
  match activePermissions with
  | [] =>
    { isConfigured := false, threshold := 0, keyCount := 0,
      hasReceivingKey := false, hasApprovingKey := false }
  | activePermission :: _ =>
    { isConfigured := decide (2 ≤ activePermission.threshold)
        && decide (2 ≤ activePermission.keys.length),
      threshold := activePermission.threshold,
      keyCount := activePermission.keys.length,
      hasReceivingKey := activePermission.keys.any
        (fun key => key.address == receivingAddress),
      hasApprovingKey := activePermission.keys.any
        (fun key => key.address == approvingAddress) }

/-- `ForwardingStep` statuses. -/
inductive StepStatus where
  | pending
  | active
  | completed
  | error
  deriving DecidableEq, Repr

/-- One `ForwardingStep` (timestamp elided). -/
structure ForwardingStep where
  id : String
  label : String
  status : StepStatus
  details : Option String
  deriving DecidableEq, Repr

/-- `createForwardingSteps()` (lines 191–199). -/
def createForwardingSteps : List ForwardingStep :=
  [ { id := "detect", label := "Payment Detected", status := .pending, details := none },
    { id := "create", label := "Transaction Created", status := .pending, details := none },
    { id := "sign1", label := "Signed by Receiving", status := .pending, details := none },
    { id := "sign2", label := "Signed by Approving", status := .pending, details := none },
    { id := "validate", label := "Multisig Validated", status := .pending, details := none },
    { id := "broadcast", label := "Broadcasted", status := .pending, details := none },
    { id := "confirm", label := "Confirmed", status := .pending, details := none } ]

/-- `updateStep(stepId, status, details?)` (lines 201–207): map over the step
list, replacing the status and details of the step with the given id. -/
def updateStep (stepId : String) (status : StepStatus) (details : Option String)
    (steps : List ForwardingStep) : List ForwardingStep :=
  steps.map (fun step =>
    if step.id == stepId then { step with status := status, details := details } else step)

/-- Status of the step with the given id, if present. -/
def stepStatusOf (steps : List ForwardingStep) (stepId : String) : Option StepStatus :=
  (steps.find? (fun step => step.id == stepId)).map (fun step => step.status)

/-- The state read and written by `monitorBalance`: `lastBalance`,
`heartbeatCountRef.current` and the activity log. -/
structure MonitorState where
  lastBalance : Option Int
  heartbeatCount : Nat
  logs : List LogEntry
  deriving DecidableEq, Repr

/-- What a `monitorBalance` tick decides to do about forwarding: nothing, or
schedule `forwardWithMultisig(receivedAmount)` (the `setTimeout` on line 461). -/
inductive MonitorAction where
  | noAction
  | forwardTriggered (receivedAmount : Int)
  deriving DecidableEq, Repr

/-- `monitorBalance` (lines 419–476).  `balanceRead` is the result of
`updateReceivingBalance()` (`none` models the `null` returned on RPC failure).
Mirrors the source order: heartbeat, first-run baseline seeding, increase
detection (with `setLastBalance(currentBalance)` before the forward is
scheduled), decrease logging. -/
def monitorBalance (st : MonitorState) (balanceRead : Option Int) :
    MonitorState × MonitorAction :=
  match balanceRead with
  | none => (st, .noAction)
  | some currentBalance =>
    let heartbeat := st.heartbeatCount + 1
    let hb :=
      if 20 ≤ heartbeat then (0, addLog ⟨.INFO, "Monitoring active"⟩ st.logs)
      else (heartbeat, st.logs)
    match st.lastBalance with
    | none =>
      ({ lastBalance := some currentBalance, heartbeatCount := hb.1,
         logs := addLog ⟨.INFO, "Initial balance set"⟩ hb.2 }, .noAction)
    | some lastBalance =>
      if lastBalance < currentBalance then
        let receivedAmount := currentBalance - lastBalance
        let logs := addLog ⟨.DETECTION, "TRX PAYMENT DETECTED!"⟩ hb.2
        ({ lastBalance := some currentBalance, heartbeatCount := hb.1, logs := logs },
         .forwardTriggered receivedAmount)
      else if currentBalance < lastBalance then
        let logs := addLog ⟨.BALANCE, "Balance decreased"⟩ hb.2
        ({ lastBalance := some currentBalance, heartbeatCount := hb.1, logs := logs },
         .noAction)
      else
        ({ st with heartbeatCount := hb.1, logs := hb.2 }, .noAction)

/-- The state reset performed by `startMonitoring` (lines 497–499) before the
initial `monitorBalance()` call: `setLastBalance(null)` and
`heartbeatCountRef.current = 0`. -/
def startMonitoringReset (st : MonitorState) : MonitorState :=
  { st with lastBalance := none, heartbeatCount := 0 }

/-- The configuration fields `forwardWithMultisig` reads.  `feeReserveSun` is
`tronWeb.toSun(config.feeReserve)`, the fee reserve already converted to Sun. -/
structure ForwardingConfig where
  receivingAddress : String
  destinationAddress : String
  feeReserveSun : Int
  deriving DecidableEq, Repr

/-- `maxRetries = 3` (line 27). -/
def maxRetries : Nat := 3

/-- `retryDelay = 5000` ms (line 28). -/
def retryDelay : Nat := 5000

/-- The external world one attempt of `forwardWithMultisig` interacts with:
each field is the result of one awaited call, in source order.
`currentBalanceRead`/`balanceAfterRead` are `updateReceivingBalance()` results
(`none` = the `null` returned on RPC failure); `signResult` is the
`signTransaction(firstSigned)` result: `none` when TronLink returned a falsy
value, `some len` when it returned a transaction whose `signature` payload has
length `len` (an absent or empty `signature` field is `len = 0`, which the
source rejects the same way as any length below 130). -/
structure AttemptEnv where
  currentBalanceRead : Option Int
  createOk : Bool
  txId : String
  sign1Ok : Bool
  signResult : Option Nat
  broadcastResult : Bool
  broadcastMessage : Option String
  balanceAfterRead : Option Int
  deriving DecidableEq, Repr

/-- The transfer built by `tronWeb.transactionBuilder.sendTrx(destination,
forwardAmount, receiving)` (lines 258–262). -/
structure BuiltTx where
  toAddress : String
  amount : Int
  fromAddress : String
  txID : String
  deriving DecidableEq, Repr

/-- How one execution of the `try` body (lines 223–394) ends:
`success` = `return result`; `insufficient` = the `return` on line 253 after
the insufficient-balance warning; `failure msg` = a thrown error caught by the
retry loop. -/
inductive AttemptOutcome where
  | success
  | insufficient
  | failure (message : String)
  deriving DecidableEq, Repr

/-- State after one execution of the `try` body, plus the transaction it built
(if it reached the builder call) and its outcome. -/
structure AttemptResult where
  steps : List ForwardingStep
  logs : List LogEntry
  lastBalance : Option Int
  built : Option BuiltTx
  outcome : AttemptOutcome
  deriving DecidableEq, Repr

/-- The start-of-attempt log entry (lines 226–231), carrying the 1-based
attempt number. -/
def startingEntry (attempts : Nat) : LogEntry :=
  let attemptNo := attempts + 1
  ⟨.INFO, s!"STARTING MULTISIG FORWARD PROCESS... attempt {attemptNo} of 3"⟩

/-- The insufficient-balance warning (line 247). -/
def insufficientEntry : LogEntry :=
  ⟨.WARNING, "Insufficient balance after fee reserve"⟩

/-- One execution of the `try` body of `forwardWithMultisig` (lines 223–394),
with `attempts` the source's attempt counter on entry (used only in the
start-of-attempt log).  Mirrors the source statement by statement; step
details that only echo amounts/ids are kept schematic. -/
def attemptOnce (config : ForwardingConfig) (receivedAmount : Int) (attempts : Nat)
    (env : AttemptEnv) (steps0 : List ForwardingStep) (logs0 : List LogEntry)
    (lastBalance0 : Option Int) : AttemptResult :=
  let logs := addLog (startingEntry attempts) logs0
  let steps := updateStep "detect" .completed (some "TRX received") steps0
  match env.currentBalanceRead with
  | none =>
    -- `if (!currentBalance) throw ...`: `null` is falsy
    ⟨steps, logs, lastBalance0, none, .failure "Failed to get current balance"⟩
  | some currentBalance =>
    if currentBalance = 0 then
      -- `if (!currentBalance) throw ...`: a balance of exactly 0 is falsy too
      ⟨steps, logs, lastBalance0, none, .failure "Failed to get current balance"⟩
    else
      let feeReserve := config.feeReserveSun
      let availableAmount := max 0 (currentBalance - feeReserve)
      let forwardAmount := min receivedAmount availableAmount
      if forwardAmount ≤ 0 then
        let logs := addLog insufficientEntry logs
        let steps := updateStep "detect" .error (some "Insufficient balance for forwarding") steps
        ⟨steps, logs, lastBalance0, none, .insufficient⟩
      else
        let steps := updateStep "create" .active none steps
        if env.createOk = false then
          -- the builder RPC threw; caught by the retry loop
          ⟨steps, logs, lastBalance0, none, .failure "transaction build failed"⟩
        else
          let transaction : BuiltTx :=
            ⟨config.destinationAddress, forwardAmount, config.receivingAddress, env.txId⟩
          let txIdShort := env.txId.take 8
          let steps := updateStep "create" .completed (some s!"Transaction {txIdShort}... created") steps
          let logs := addLog ⟨.INFO, "Multisig transaction created"⟩ logs
          let steps := updateStep "sign1" .active none steps
          if env.sign1Ok = false then
            -- `tronWeb.trx.multiSign` threw; caught by the retry loop
            ⟨steps, logs, lastBalance0, some transaction, .failure "multiSign failed"⟩
          else
            let steps := updateStep "sign1" .completed (some "Auto-signed with receiving wallet") steps
            let logs := addLog ⟨.SIGNATURE, "First signature completed (receiving wallet)"⟩ logs
            let steps := updateStep "sign2" .active none steps
            let logs := addLog ⟨.SIGNATURE, "Requesting second signature from TronLink..."⟩ logs
            match env.signResult with
            | none =>
              ⟨steps, logs, lastBalance0, some transaction,
               .failure "TronLink signing was cancelled or failed"⟩
            | some signatureLength =>
              if signatureLength < 130 then
                ⟨steps, logs, lastBalance0, some transaction,
                 .failure "Invalid signature format - transaction may not be properly signed"⟩
              else
                let steps := updateStep "sign2" .completed (some "Signed with TronLink wallet") steps
                let logs := addLog ⟨.SIGNATURE, "Second signature completed (TronLink wallet)"⟩ logs
                let steps := updateStep "validate" .active none steps
                -- `const signatureCount = fullySigned.signature.length / 65` (JS real division)
                let signatureCount : ℚ := (signatureLength : ℚ) / 65
                if ¬ (2 ≤ signatureCount) then
                  ⟨steps, logs, lastBalance0, some transaction,
                   .failure "Transaction does not meet 2-of-2 multisig requirements"⟩
                else
                  let steps := updateStep "validate" .completed (some "signatures validated") steps
                  let logs := addLog ⟨.SUCCESS, "DUAL SIGNATURE COMPLETE - TRANSACTION READY"⟩ logs
                  let steps := updateStep "broadcast" .active none steps
                  let logs := addLog ⟨.BROADCAST, "Broadcasting multisig transaction to TRON network..."⟩ logs
                  if env.broadcastResult = false then
                    let failureDetail := (env.broadcastMessage).getD "Unknown error"
                    ⟨steps, logs, lastBalance0, some transaction,
                     .failure s!"Broadcast failed: {failureDetail}"⟩
                  else
                    let steps := updateStep "broadcast" .completed (some "broadcasted") steps
                    let logs := addLog ⟨.BROADCAST, "Transaction broadcasted successfully"⟩ logs
                    let steps := updateStep "confirm" .active none steps
                    -- await delay(5000), then re-read the balance
                    match env.balanceAfterRead with
                    | none =>
                      -- `balanceAfter === null`: confirm step stays active, still returns result
                      ⟨steps, logs, lastBalance0, some transaction, .success⟩
                    | some balanceAfter =>
                      let steps := updateStep "confirm" .completed (some "Transaction confirmed on network") steps
                      let logs := addLog ⟨.SUCCESS, "MULTISIG FORWARD COMPLETED SUCCESSFULLY!"⟩ logs
                      ⟨steps, logs, some balanceAfter, some transaction, .success⟩

/-- How a whole `forwardWithMultisig` call returns: `completed` = returned the
broadcast result; `insufficient` = returned from the no-op warning path;
`failedAll` = fell out of the retry loop and returned `null`. -/
inductive RunOutcome where
  | completed
  | insufficient
  | failedAll
  deriving DecidableEq, Repr

/-- Result of a whole `forwardWithMultisig` call.  `attemptsCounter` is the
source's `attempts` variable at return time; `invocations`, `delays` and
`attemptFailureLogs` are an execution transcript: how many times the `try`
body ran, the `await delay(...)` calls made between attempts, and the
attempt-failure log entries emitted by the `catch` block, in order. -/
structure ForwardRunResult where
  steps : List ForwardingStep
  logs : List LogEntry
  lastBalance : Option Int
  outcome : RunOutcome
  attemptsCounter : Nat
  invocations : Nat
  delays : List Nat
  attemptFailureLogs : List LogEntry
  deriving DecidableEq, Repr

/-- The `catch` block's step update (lines 404–406): every step currently
`active` becomes `error`, carrying the failure message. -/
def markActiveError (msg : String) (steps : List ForwardingStep) : List ForwardingStep :=
  steps.map (fun step =>
    if step.status == .active then { step with status := .error, details := some msg }
    else step)

/-- The `catch` block's log entry: `Multisig forward attempt ${attempts} failed`
(line 397), with `attempts` already incremented. -/
def attemptFailEntry (attemptNumber : Nat) : LogEntry :=
  ⟨.ERROR, s!"Multisig forward attempt {attemptNumber} failed"⟩

/-- `Retrying in ${retryDelay / 1000} seconds...` (line 409). -/
def retryingEntry : LogEntry :=
  ⟨.INFO, "Retrying in 5 seconds..."⟩

/-- The terminal log entry after the loop: `MULTISIG FORWARD FAILED after
${maxRetries} attempts` (line 415). -/
def terminalFailEntry : LogEntry :=
  ⟨.ERROR, "MULTISIG FORWARD FAILED after 3 attempts"⟩

/-- The `while (attempts < maxRetries)` retry loop of `forwardWithMultisig`
(lines 220–416).  `remaining = maxRetries - attempts` is the structural fuel;
`envs i` is the environment seen by the `try` body when the `attempts` counter
equals `i`.  The `catch` block increments `attempts`, logs the failure with
its attempt number, marks every active step `error`, and waits `retryDelay`
before the next attempt when attempts remain. -/
def forwardLoop (config : ForwardingConfig) (receivedAmount : Int)
    (envs : Nat → AttemptEnv) :
    Nat → Nat → List ForwardingStep → List LogEntry → Option Int → Nat →
    List Nat → List LogEntry → ForwardRunResult
  | 0, attempts, steps, logs, lastB, invocations, delays, failLogs =>
    ⟨steps, addLog terminalFailEntry logs, lastB, .failedAll, attempts, invocations,
     delays, failLogs⟩
  | remaining + 1, attempts, steps, logs, lastB, invocations, delays, failLogs =>
    let r := attemptOnce config receivedAmount attempts (envs attempts) steps logs lastB
    match r.outcome with
    | .success =>
      ⟨r.steps, r.logs, r.lastBalance, .completed, attempts, invocations + 1, delays, failLogs⟩
    | .insufficient =>
      ⟨r.steps, r.logs, r.lastBalance, .insufficient, attempts, invocations + 1, delays, failLogs⟩
    | .failure msg =>
      let attemptsNext := attempts + 1
      let logs := addLog (attemptFailEntry attemptsNext) r.logs
      let steps := markActiveError msg r.steps
      if attemptsNext < maxRetries then
        forwardLoop config receivedAmount envs remaining attemptsNext steps
          (addLog retryingEntry logs) lastB
          (invocations + 1) (delays ++ [retryDelay]) (failLogs ++ [attemptFailEntry attemptsNext])
      else
        forwardLoop config receivedAmount envs remaining attemptsNext steps logs lastB
          (invocations + 1) delays (failLogs ++ [attemptFailEntry attemptsNext])

/-- `forwardWithMultisig(receivedAmount)` (lines 211–417): installs the fresh
step list (`setCurrentSteps(createForwardingSteps())`), then runs the retry
loop with `attempts = 0`. -/
def forwardWithMultisig (config : ForwardingConfig) (receivedAmount : Int)
    (envs : Nat → AttemptEnv) (logs0 : List LogEntry) (lastBalance0 : Option Int) :
    ForwardRunResult :=
  forwardLoop config receivedAmount envs maxRetries 0 createForwardingSteps logs0
    lastBalance0 0 [] []

/-- System state for the monitor/pipeline interplay: the monitor state plus
the number of forwarding runs currently in flight (each `setTimeout(() =>
forwardWithMultisig(...), 2000)` starts one; a run ends when it reaches a
terminal outcome). -/
structure SystemState where
  monitor : MonitorState
  activeRuns : Nat
  deriving DecidableEq, Repr

/-- Events of the monitoring system: a poll tick (with the balance the tick
read), or an in-flight forwarding run reaching its terminal state. -/
inductive SystemEvent where
  | poll (balanceRead : Option Int)
  | runTerminates
  deriving DecidableEq, Repr

/-- One system transition: a poll tick executes `monitorBalance`, and a run
is started exactly when the tick schedules `forwardWithMultisig` — the source
consults no run-in-progress flag before doing so. -/
def systemStep (s : SystemState) (e : SystemEvent) : SystemState :=
  match e with
  | .poll b =>
    let m := monitorBalance s.monitor b
    match m.2 with
    | .noAction => { monitor := m.1, activeRuns := s.activeRuns }
    | .forwardTriggered _ => { monitor := m.1, activeRuns := s.activeRuns + 1 }
  | .runTerminates => { s with activeRuns := s.activeRuns - 1 }

/-- Run a sequence of system events from a state. -/
def systemRun (s : SystemState) : List SystemEvent → SystemState
  | [] => s
  | e :: es => systemRun (systemStep s e) es

/-- The system state right after `startMonitoring`: baseline reset, no run
in flight. -/
def initialSystem : SystemState :=
  { monitor := { lastBalance := none, heartbeatCount := 0, logs := [] }, activeRuns := 0 }

/-- The outcome of one `try`-body execution as a function of the environment
alone (the control flow of `attemptOnce` never consults the threaded
steps/logs/lastBalance state; `attemptOnce_outcome_eq` proves this). -/
def attemptOutcomeOf (config : ForwardingConfig) (receivedAmount : Int)
    (env : AttemptEnv) : AttemptOutcome :=
  (attemptOnce config receivedAmount 0 env createForwardingSteps [] none).outcome

/-! Sample inputs used by concrete witnesses and counterexamples.
Balances are in Sun; `sampleConfig` reserves 0.5 TRX = 500000 Sun. -/

def sampleConfig : ForwardingConfig := ⟨"TRecv", "TDest", 500000⟩

/-- Balance read 1 TRX; the first local signature throws. -/
def envSign1Fails : AttemptEnv := ⟨some 1000000, true, "tx1", false, none, false, none, none⟩

/-- Every balance read fails (`null`). -/
def envBalanceNone : AttemptEnv := ⟨none, true, "tx1", true, some 130, true, none, some 1⟩

/-- The balance read returns exactly 0. -/
def envBalanceZero : AttemptEnv := ⟨some 0, true, "tx1", true, some 130, true, none, some 1⟩

/-- The balance read returns 0.4 TRX, below the 0.5 TRX fee reserve. -/
def envLowBalance : AttemptEnv := ⟨some 400000, true, "tx1", true, some 130, true, none, some 1⟩

/-- Everything succeeds; the external signer returns a 130-byte payload. -/
def envAllGood : AttemptEnv := ⟨some 1000000, true, "tx1", true, some 130, true, none, some 699000⟩

/-! ## Basic lemmas -/

theorem addLog_eq (entry : LogEntry) (prev : List LogEntry) :
    addLog entry prev = entry :: prev.take 99 := rfl

theorem addLog_head (entry : LogEntry) (prev : List LogEntry) :
    (addLog entry prev).head? = some entry := rfl

set_option maxHeartbeats 2000000 in
/-- The branch taken by the `try` body depends only on the environment, never
on the threaded steps/logs/lastBalance nor on the attempt counter. -/
theorem attemptOnce_outcome_eq (config : ForwardingConfig) (receivedAmount : Int)
    (attempts : Nat) (env : AttemptEnv) (steps0 : List ForwardingStep)
    (logs0 : List LogEntry) (lastBalance0 : Option Int) :
    (attemptOnce config receivedAmount attempts env steps0 logs0 lastBalance0).outcome =
      attemptOutcomeOf config receivedAmount env := by
  unfold attemptOutcomeOf attemptOnce
  rcases env.currentBalanceRead with _ | bal
  · rfl
  · rcases env.signResult with _ | len <;>
      rcases env.balanceAfterRead with _ | after <;>
      dsimp only <;>
      (repeat' split) <;> rfl

theorem forwardLoop_zero (config : ForwardingConfig) (r : Int) (envs : Nat → AttemptEnv)
    (a : Nat) (st : List ForwardingStep) (l : List LogEntry) (lb : Option Int)
    (inv : Nat) (d : List Nat) (fl : List LogEntry) :
    forwardLoop config r envs 0 a st l lb inv d fl =
      ⟨st, addLog terminalFailEntry l, lb, .failedAll, a, inv, d, fl⟩ := rfl

theorem forwardLoop_succ_success (config : ForwardingConfig) (r : Int)
    (envs : Nat → AttemptEnv) {m n : Nat} (hm : m = n + 1)
    (a : Nat) (st : List ForwardingStep) (l : List LogEntry) (lb : Option Int)
    (inv : Nat) (d : List Nat) (fl : List LogEntry)
    (h : (attemptOnce config r a (envs a) st l lb).outcome = .success) :
    forwardLoop config r envs m a st l lb inv d fl =
      ⟨(attemptOnce config r a (envs a) st l lb).steps,
       (attemptOnce config r a (envs a) st l lb).logs,
       (attemptOnce config r a (envs a) st l lb).lastBalance,
       .completed, a, inv + 1, d, fl⟩ := by
  subst hm
  simp only [forwardLoop, h]

theorem forwardLoop_succ_insufficient (config : ForwardingConfig) (r : Int)
    (envs : Nat → AttemptEnv) {m n : Nat} (hm : m = n + 1)
    (a : Nat) (st : List ForwardingStep) (l : List LogEntry) (lb : Option Int)
    (inv : Nat) (d : List Nat) (fl : List LogEntry)
    (h : (attemptOnce config r a (envs a) st l lb).outcome = .insufficient) :
    forwardLoop config r envs m a st l lb inv d fl =
      ⟨(attemptOnce config r a (envs a) st l lb).steps,
       (attemptOnce config r a (envs a) st l lb).logs,
       (attemptOnce config r a (envs a) st l lb).lastBalance,
       .insufficient, a, inv + 1, d, fl⟩ := by
  subst hm
  simp only [forwardLoop, h]

theorem forwardLoop_succ_failure_retry (config : ForwardingConfig) (r : Int)
    (envs : Nat → AttemptEnv) {m n : Nat} (hm : m = n + 1)
    (a : Nat) (st : List ForwardingStep) (l : List LogEntry) (lb : Option Int)
    (inv : Nat) (d : List Nat) (fl : List LogEntry) (msg : String)
    (h : (attemptOnce config r a (envs a) st l lb).outcome = .failure msg)
    (hlt : a + 1 < maxRetries) :
    forwardLoop config r envs m a st l lb inv d fl =
      forwardLoop config r envs n (a + 1)
        (markActiveError msg (attemptOnce config r a (envs a) st l lb).steps)
        (addLog retryingEntry
          (addLog (attemptFailEntry (a + 1)) (attemptOnce config r a (envs a) st l lb).logs))
        lb (inv + 1) (d ++ [retryDelay]) (fl ++ [attemptFailEntry (a + 1)]) := by
  subst hm
  simp only [forwardLoop, h, if_pos hlt]

theorem forwardLoop_succ_failure_last (config : ForwardingConfig) (r : Int)
    (envs : Nat → AttemptEnv) {m n : Nat} (hm : m = n + 1)
    (a : Nat) (st : List ForwardingStep) (l : List LogEntry) (lb : Option Int)
    (inv : Nat) (d : List Nat) (fl : List LogEntry) (msg : String)
    (h : (attemptOnce config r a (envs a) st l lb).outcome = .failure msg)
    (hge : ¬ (a + 1 < maxRetries)) :
    forwardLoop config r envs m a st l lb inv d fl =
      forwardLoop config r envs n (a + 1)
        (markActiveError msg (attemptOnce config r a (envs a) st l lb).steps)
        (addLog (attemptFailEntry (a + 1)) (attemptOnce config r a (envs a) st l lb).logs)
        lb (inv + 1) d (fl ++ [attemptFailEntry (a + 1)]) := by
  subst hm
  simp only [forwardLoop, h, if_neg hge]

theorem forwardLoop_invocations_le (config : ForwardingConfig) (r : Int)
    (envs : Nat → AttemptEnv) :
    ∀ (rem a : Nat) (st : List ForwardingStep) (l : List LogEntry) (lb : Option Int)
      (inv : Nat) (d : List Nat) (fl : List LogEntry),
      (forwardLoop config r envs rem a st l lb inv d fl).invocations ≤ inv + rem := by
  intro rem
  induction rem with
  | zero =>
    intro a st l lb inv d fl
    rw [forwardLoop_zero]
    dsimp only
    omega
  | succ n ih =>
    intro a st l lb inv d fl
    cases h : (attemptOnce config r a (envs a) st l lb).outcome with
    | success =>
      rw [forwardLoop_succ_success config r envs rfl a st l lb inv d fl h]
      dsimp only
      omega
    | insufficient =>
      rw [forwardLoop_succ_insufficient config r envs rfl a st l lb inv d fl h]
      dsimp only
      omega
    | failure msg =>
      by_cases hlt : a + 1 < maxRetries
      · rw [forwardLoop_succ_failure_retry config r envs rfl a st l lb inv d fl msg h hlt]
        have := ih (a + 1)
          (markActiveError msg (attemptOnce config r a (envs a) st l lb).steps)
          (addLog retryingEntry
            (addLog (attemptFailEntry (a + 1)) (attemptOnce config r a (envs a) st l lb).logs))
          lb (inv + 1) (d ++ [retryDelay]) (fl ++ [attemptFailEntry (a + 1)])
        omega
      · rw [forwardLoop_succ_failure_last config r envs rfl a st l lb inv d fl msg h hlt]
        have := ih (a + 1)
          (markActiveError msg (attemptOnce config r a (envs a) st l lb).steps)
          (addLog (attemptFailEntry (a + 1)) (attemptOnce config r a (envs a) st l lb).logs)
          lb (inv + 1) d (fl ++ [attemptFailEntry (a + 1)])
        omega

/-- A run whose first three attempts all fail exhausts the retry loop:
terminal failure outcome and log, three counted attempts, three failure log
entries carrying their attempt numbers, and the two inter-attempt delays. -/
theorem forward_three_failures (config : ForwardingConfig) (r : Int)
    (envs : Nat → AttemptEnv) (logs0 : List LogEntry) (lastB : Option Int)
    (msg0 msg1 msg2 : String)
    (h0 : attemptOutcomeOf config r (envs 0) = .failure msg0)
    (h1 : attemptOutcomeOf config r (envs 1) = .failure msg1)
    (h2 : attemptOutcomeOf config r (envs 2) = .failure msg2) :
    (forwardWithMultisig config r envs logs0 lastB).outcome = .failedAll ∧
    (forwardWithMultisig config r envs logs0 lastB).attemptsCounter = 3 ∧
    (forwardWithMultisig config r envs logs0 lastB).invocations = 3 ∧
    (forwardWithMultisig config r envs logs0 lastB).delays = [retryDelay, retryDelay] ∧
    (forwardWithMultisig config r envs logs0 lastB).attemptFailureLogs =
      [attemptFailEntry 1, attemptFailEntry 2, attemptFailEntry 3] ∧
    (forwardWithMultisig config r envs logs0 lastB).logs.head? = some terminalFailEntry := by
  unfold forwardWithMultisig
  rw [forwardLoop_succ_failure_retry config r envs (show maxRetries = 2 + 1 from rfl)
    0 createForwardingSteps logs0 lastB 0 [] [] msg0
    ((attemptOnce_outcome_eq config r 0 (envs 0) createForwardingSteps logs0 lastB).trans h0)
    (by decide)]
  rw [forwardLoop_succ_failure_retry config r envs (show (2 : Nat) = 1 + 1 from rfl)
    1 _ _ lastB 1 _ _ msg1
    ((attemptOnce_outcome_eq config r 1 (envs 1) _ _ lastB).trans h1)
    (by decide)]
  rw [forwardLoop_succ_failure_last config r envs (show (1 : Nat) = 0 + 1 from rfl)
    2 _ _ lastB 2 _ _ msg2
    ((attemptOnce_outcome_eq config r 2 (envs 2) _ _ lastB).trans h2)
    (by decide)]
  rw [forwardLoop_zero]
  refine ⟨rfl, rfl, rfl, by simp, by simp, ?_⟩
  exact addLog_head _ _

/-- A balance re-read that returns `null` or exactly `0` is falsy in
`if (!currentBalance)`: the attempt throws before computing anything. -/
theorem attemptOnce_balance_falsy (config : ForwardingConfig) (receivedAmount : Int)
    (attempts : Nat) (env : AttemptEnv) (steps0 : List ForwardingStep)
    (logs0 : List LogEntry) (lastBalance0 : Option Int)
    (h : env.currentBalanceRead = none ∨ env.currentBalanceRead = some 0) :
    (attemptOnce config receivedAmount attempts env steps0 logs0 lastBalance0).outcome =
      .failure "Failed to get current balance" := by
  rcases h with h | h
  · unfold attemptOnce
    rw [h]
  · unfold attemptOnce
    rw [h]
    simp

/-- The insufficient-funds path (lines 246–254): warning logged, `detect` step
set to `error`, nothing built, outcome `insufficient`. -/
theorem attemptOnce_insufficient_eq (config : ForwardingConfig) (receivedAmount : Int)
    (attempts : Nat) (env : AttemptEnv) (steps0 : List ForwardingStep)
    (logs0 : List LogEntry) (lastBalance0 : Option Int) (bal : Int)
    (h1 : env.currentBalanceRead = some bal) (h2 : bal ≠ 0)
    (h3 : min receivedAmount (max 0 (bal - config.feeReserveSun)) ≤ 0) :
    attemptOnce config receivedAmount attempts env steps0 logs0 lastBalance0 =
      ⟨updateStep "detect" .error (some "Insufficient balance for forwarding")
         (updateStep "detect" .completed (some "TRX received") steps0),
       addLog insufficientEntry (addLog (startingEntry attempts) logs0),
       lastBalance0, none, .insufficient⟩ := by
  unfold attemptOnce
  rw [h1]
  simp [h2, h3]

set_option maxHeartbeats 2000000 in
/-- The `built` transaction of an attempt is either absent or exactly the
transfer `sendTrx(destination, forwardAmount, receiving)` built in a branch
where `forwardAmount > 0`. -/
theorem attemptOnce_built_shape (config : ForwardingConfig) (receivedAmount : Int)
    (attempts : Nat) (env : AttemptEnv) (steps0 : List ForwardingStep)
    (logs0 : List LogEntry) (lastBalance0 : Option Int) (bal : Int)
    (h1 : env.currentBalanceRead = some bal) :
    (attemptOnce config receivedAmount attempts env steps0 logs0 lastBalance0).built = none ∨
    (¬ (min receivedAmount (max 0 (bal - config.feeReserveSun)) ≤ 0) ∧
      (attemptOnce config receivedAmount attempts env steps0 logs0 lastBalance0).built =
        some ⟨config.destinationAddress,
              min receivedAmount (max 0 (bal - config.feeReserveSun)),
              config.receivingAddress, env.txId⟩) := by
  unfold attemptOnce
  rw [h1]
  rcases env.signResult with _ | len <;>
    rcases env.balanceAfterRead with _ | after <;>
    dsimp only <;>
    (repeat' split) <;> simp_all

/-! ## Claim theorems -/

/-- C8: after every append the activity log holds at most 100 entries, the
new entry is at the head (most recent first), the surviving old entries keep
their order, and eviction always drops the oldest (the tail beyond the first
99 old entries). -/
theorem activity_log_capped_fifo (entry : LogEntry) (prev : List LogEntry) :
    (addLog entry prev).length ≤ 100 ∧
    (addLog entry prev).head? = some entry ∧
    addLog entry prev = entry :: prev.take 99 := by
  refine ⟨?_, addLog_head entry prev, addLog_eq entry prev⟩
  rw [addLog_eq]
  have := List.length_take_le 99 prev
  simp only [List.length_cons]
  omega

/-- C2 (counterexample): a permission with threshold 2 and two keys, neither
of which is the receiving or the approving key, still yields
`isConfigured = true` — the claimed equivalence with key presence fails. -/
theorem isConfigured_iff_keys_cex :
    ¬ (((computeMultisigStatus [⟨2, [⟨"TB"⟩, ⟨"TC"⟩]⟩] "TR" "TA").isConfigured = true) ↔
       (2 ≤ (computeMultisigStatus [⟨2, [⟨"TB"⟩, ⟨"TC"⟩]⟩] "TR" "TA").threshold ∧
        2 ≤ (computeMultisigStatus [⟨2, [⟨"TB"⟩, ⟨"TC"⟩]⟩] "TR" "TA").keyCount ∧
        (computeMultisigStatus [⟨2, [⟨"TB"⟩, ⟨"TC"⟩]⟩] "TR" "TA").hasReceivingKey = true ∧
        (computeMultisigStatus [⟨2, [⟨"TB"⟩, ⟨"TC"⟩]⟩] "TR" "TA").hasApprovingKey = true)) := by
  decide

/-- C2 (amended): `isConfigured` is true iff the account's first active
permission has threshold ≥ 2 and at least 2 keys; the presence of the
receiving and approving keys is reported separately but does not enter
`isConfigured`. -/
theorem isConfigured_iff_threshold_keyCount (perms : List ActivePermission)
    (receivingAddress approvingAddress : String) :
    (computeMultisigStatus perms receivingAddress approvingAddress).isConfigured = true ↔
      ∃ p ps, perms = p :: ps ∧ 2 ≤ p.threshold ∧ 2 ≤ p.keys.length := by
  cases perms with
  | nil => simp [computeMultisigStatus]
  | cons p ps =>
    simp only [computeMultisigStatus, Bool.and_eq_true, decide_eq_true_eq]
    constructor
    · rintro ⟨h1, h2⟩
      exact ⟨p, ps, rfl, h1, h2⟩
    · rintro ⟨p2, ps2, heq, h1, h2⟩
      injection heq with e1 e2
      subst e1
      exact ⟨h1, h2⟩

/-- C6: the first observation after monitoring starts never triggers a run —
it only seeds the baseline — and `startMonitoring` resets the baseline, so
after a restart the next observation is again treated as initial. -/
theorem first_observation_never_triggers (st st2 : MonitorState) (b : Int)
    (h : st2.lastBalance = none) :
    (startMonitoringReset st).lastBalance = none ∧
    (monitorBalance st2 (some b)).2 = .noAction ∧
    (monitorBalance st2 (some b)).1.lastBalance = some b := by
  refine ⟨rfl, ?_, ?_⟩ <;> simp [monitorBalance, h]

theorem first_observation_never_triggers_witness :
    (startMonitoringReset ⟨some 5, 3, []⟩).lastBalance = none ∧
    (monitorBalance ⟨none, 0, []⟩ (some 42)).2 = .noAction ∧
    (monitorBalance ⟨none, 0, []⟩ (some 42)).1.lastBalance = some 42 :=
  first_observation_never_triggers ⟨some 5, 3, []⟩ ⟨none, 0, []⟩ 42 rfl

/-- C7: whenever a tick triggers a forward, the stored previous balance has
already been updated to the newly observed balance, the triggered amount is
exactly the delta against a strictly smaller previous balance, and
re-observing the same balance afterwards triggers nothing (the delta is never
counted twice). -/
theorem baseline_updated_before_trigger (st : MonitorState) (b a : Int)
    (h : (monitorBalance st (some b)).2 = .forwardTriggered a) :
    (monitorBalance st (some b)).1.lastBalance = some b ∧
    (∃ prev, st.lastBalance = some prev ∧ prev < b ∧ a = b - prev) ∧
    (monitorBalance (monitorBalance st (some b)).1 (some b)).2 = .noAction := by
  rcases hlb : st.lastBalance with _ | prev
  · exact absurd h (by simp [monitorBalance, hlb])
  · by_cases hlt : prev < b
    · have ha : a = b - prev := by
        have hc := h
        simp [monitorBalance, hlb, hlt] at hc
        omega
      have hfst : (monitorBalance st (some b)).1.lastBalance = some b := by
        simp [monitorBalance, hlb, hlt]
      refine ⟨hfst, ⟨prev, by simp [hlb], hlt, ha⟩, ?_⟩
      generalize hst1 : (monitorBalance st (some b)).1 = st1 at hfst
      simp [monitorBalance, hfst, lt_irrefl]
    · exfalso
      have hc := h
      simp only [monitorBalance, hlb] at hc
      rw [if_neg hlt] at hc
      split at hc <;> simp_all

theorem baseline_updated_before_trigger_witness :
    (monitorBalance ⟨some 100, 0, []⟩ (some 150)).1.lastBalance = some 150 ∧
    (∃ prev, (⟨some 100, 0, []⟩ : MonitorState).lastBalance = some prev ∧
      prev < 150 ∧ (50 : Int) = 150 - prev) ∧
    (monitorBalance (monitorBalance ⟨some 100, 0, []⟩ (some 150)).1 (some 150)).2 = .noAction :=
  baseline_updated_before_trigger ⟨some 100, 0, []⟩ 150 50 (by decide)

/-- C1 (counterexample): with no run termination in between, a second detected
increase starts a second forwarding run — after polls 100, 150, 200 two runs
are in flight, so the new deposit is not deferred and the single-active-run
property fails. -/
theorem single_active_run_cex :
    (systemRun initialSystem [.poll (some 100), .poll (some 150)]).activeRuns = 1 ∧
    (systemRun initialSystem
        [.poll (some 100), .poll (some 150), .poll (some 200)]).activeRuns = 2 := by
  decide

/-- C1 (amended): the monitor consults no run-in-progress flag — whenever the
observed balance exceeds the stored previous balance, a new forwarding run is
scheduled immediately, no matter how many runs are already active. -/
theorem increase_starts_run_regardless_of_active (s : SystemState) (prev b : Int)
    (h1 : s.monitor.lastBalance = some prev) (h2 : prev < b) :
    (systemStep s (.poll (some b))).activeRuns = s.activeRuns + 1 := by
  unfold systemStep
  simp [monitorBalance, h1, h2]

theorem increase_starts_run_regardless_of_active_witness :
    (systemStep (systemRun initialSystem [.poll (some 100), .poll (some 120)])
        (.poll (some 150))).activeRuns =
      (systemRun initialSystem [.poll (some 100), .poll (some 120)]).activeRuns + 1 :=
  increase_starts_run_regardless_of_active
    (systemRun initialSystem [.poll (some 100), .poll (some 120)]) 120 150
    (by decide) (by decide)

/-- C3: every transaction an attempt builds transfers exactly
`min(detectedAmount, max(0, currentBalance − feeReserve))` — with
`currentBalance` the balance re-read inside the attempt — from the receiving
to the destination address, and is only built when that amount is positive;
when the formula gives ≤ 0, no transaction is built at all. -/
theorem forwardAmount_formula (config : ForwardingConfig) (receivedAmount : Int)
    (attempts : Nat) (env : AttemptEnv) (steps0 : List ForwardingStep)
    (logs0 : List LogEntry) (lastBalance0 : Option Int) :
    (∀ tx : BuiltTx,
      (attemptOnce config receivedAmount attempts env steps0 logs0 lastBalance0).built =
          some tx →
      ∃ bal, env.currentBalanceRead = some bal ∧
        tx.amount = min receivedAmount (max 0 (bal - config.feeReserveSun)) ∧
        0 < tx.amount ∧
        tx.toAddress = config.destinationAddress ∧
        tx.fromAddress = config.receivingAddress) ∧
    (∀ bal, env.currentBalanceRead = some bal →
      min receivedAmount (max 0 (bal - config.feeReserveSun)) ≤ 0 →
      (attemptOnce config receivedAmount attempts env steps0 logs0 lastBalance0).built =
        none) := by
  constructor
  · intro tx htx
    rcases hcb : env.currentBalanceRead with _ | bal
    · exfalso
      unfold attemptOnce at htx
      rw [hcb] at htx
      simp at htx
    · rcases attemptOnce_built_shape config receivedAmount attempts env steps0 logs0
        lastBalance0 bal hcb with hA | ⟨hgt, hA⟩
      · rw [hA] at htx
        cases htx
      · rw [hA] at htx
        obtain rfl := Option.some.inj htx
        exact ⟨bal, rfl, rfl, not_le.mp hgt, rfl, rfl⟩
  · intro bal hbal h3
    rcases attemptOnce_built_shape config receivedAmount attempts env steps0 logs0
      lastBalance0 bal hbal with hA | ⟨hgt, _⟩
    · exact hA
    · exact absurd h3 hgt

theorem forwardAmount_formula_witness :
    (∃ bal, envSign1Fails.currentBalanceRead = some bal ∧
      (⟨"TDest", 300, "TRecv", "tx1"⟩ : BuiltTx).amount =
        min 300 (max 0 (bal - sampleConfig.feeReserveSun)) ∧
      0 < (⟨"TDest", 300, "TRecv", "tx1"⟩ : BuiltTx).amount ∧
      (⟨"TDest", 300, "TRecv", "tx1"⟩ : BuiltTx).toAddress =
        sampleConfig.destinationAddress ∧
      (⟨"TDest", 300, "TRecv", "tx1"⟩ : BuiltTx).fromAddress =
        sampleConfig.receivingAddress) ∧
    (attemptOnce sampleConfig 300 0 envLowBalance createForwardingSteps [] none).built =
      none :=
  ⟨(forwardAmount_formula sampleConfig 300 0 envSign1Fails createForwardingSteps
      [] none).1 ⟨"TDest", 300, "TRecv", "tx1"⟩ (by decide),
   (forwardAmount_formula sampleConfig 300 0 envLowBalance createForwardingSteps
      [] none).2 400000 (by decide) (by decide)⟩

/-- C4 (counterexample): in the insufficient-funds no-op outcome the `detect`
step *is* marked `error` ("Insufficient balance for forwarding"), so the
claim that no step of the run is marked error fails. -/
theorem insufficient_noop_cex :
    (forwardWithMultisig sampleConfig 10 (fun _ => envLowBalance) [] none).outcome =
      .insufficient ∧
    stepStatusOf (forwardWithMultisig sampleConfig 10 (fun _ => envLowBalance)
        [] none).steps "detect" = some .error := by
  decide

/-- C4 (amended): when `forwardAmount ≤ 0` the run ends as a deliberate no-op:
the insufficient-balance warning is logged, no attempt failure is counted and
no retry happens (the attempt counter stays 0, exactly one `try`-body
execution, no delays, no failure logs) — but the `detect` step is set to
status `error` with detail "Insufficient balance for forwarding". -/
theorem insufficient_noop_behavior (config : ForwardingConfig) (received : Int)
    (envs : Nat → AttemptEnv) (logs0 : List LogEntry) (lastB : Option Int) (bal : Int)
    (h1 : (envs 0).currentBalanceRead = some bal) (h2 : bal ≠ 0)
    (h3 : min received (max 0 (bal - config.feeReserveSun)) ≤ 0) :
    (forwardWithMultisig config received envs logs0 lastB).outcome = .insufficient ∧
    (forwardWithMultisig config received envs logs0 lastB).attemptsCounter = 0 ∧
    (forwardWithMultisig config received envs logs0 lastB).invocations = 1 ∧
    (forwardWithMultisig config received envs logs0 lastB).delays = [] ∧
    (forwardWithMultisig config received envs logs0 lastB).attemptFailureLogs = [] ∧
    (forwardWithMultisig config received envs logs0 lastB).logs.head? =
      some insufficientEntry ∧
    stepStatusOf (forwardWithMultisig config received envs logs0 lastB).steps "detect" =
      some .error := by
  have hins := attemptOnce_insufficient_eq config received 0 (envs 0)
    createForwardingSteps logs0 lastB bal h1 h2 h3
  have hout : (attemptOnce config received 0 (envs 0) createForwardingSteps
      logs0 lastB).outcome = .insufficient := by rw [hins]
  unfold forwardWithMultisig
  rw [forwardLoop_succ_insufficient config received envs (show maxRetries = 2 + 1 from rfl)
    0 createForwardingSteps logs0 lastB 0 [] [] hout]
  rw [hins]
  refine ⟨rfl, rfl, rfl, rfl, rfl, addLog_head _ _, ?_⟩
  show stepStatusOf
      (updateStep "detect" .error (some "Insufficient balance for forwarding")
        (updateStep "detect" .completed (some "TRX received") createForwardingSteps))
      "detect" = some .error
  decide

theorem insufficient_noop_behavior_witness :
    (forwardWithMultisig sampleConfig 10 (fun _ => envLowBalance) [] none).outcome =
      .insufficient ∧
    (forwardWithMultisig sampleConfig 10 (fun _ => envLowBalance) [] none).attemptsCounter
      = 0 ∧
    (forwardWithMultisig sampleConfig 10 (fun _ => envLowBalance) [] none).invocations
      = 1 ∧
    (forwardWithMultisig sampleConfig 10 (fun _ => envLowBalance) [] none).delays = [] ∧
    (forwardWithMultisig sampleConfig 10 (fun _ => envLowBalance)
        [] none).attemptFailureLogs = [] ∧
    (forwardWithMultisig sampleConfig 10 (fun _ => envLowBalance) [] none).logs.head? =
      some insufficientEntry ∧
    stepStatusOf (forwardWithMultisig sampleConfig 10 (fun _ => envLowBalance)
        [] none).steps "detect" = some .error :=
  insufficient_noop_behavior sampleConfig 10 (fun _ => envLowBalance) [] none 400000
    (by decide) (by decide) (by decide)

/-- C5: on step failures the whole create→confirm sequence is retried with a
fixed delay, at most 3 attempts in total; each failure is logged with its
attempt number, and when all three attempts fail the run ends in the terminal
error state with the terminal error log entry at the head of the log, and no
further attempt is made. -/
theorem retry_policy_three_attempts (config : ForwardingConfig) (received : Int)
    (envs : Nat → AttemptEnv) (logs0 : List LogEntry) (lastB : Option Int)
    (msg0 msg1 msg2 : String)
    (h0 : attemptOutcomeOf config received (envs 0) = .failure msg0)
    (h1 : attemptOutcomeOf config received (envs 1) = .failure msg1)
    (h2 : attemptOutcomeOf config received (envs 2) = .failure msg2) :
    (forwardWithMultisig config received envs logs0 lastB).outcome = .failedAll ∧
    (forwardWithMultisig config received envs logs0 lastB).attemptsCounter = 3 ∧
    (forwardWithMultisig config received envs logs0 lastB).invocations = 3 ∧
    (forwardWithMultisig config received envs logs0 lastB).delays =
      [retryDelay, retryDelay] ∧
    (forwardWithMultisig config received envs logs0 lastB).attemptFailureLogs =
      [attemptFailEntry 1, attemptFailEntry 2, attemptFailEntry 3] ∧
    (forwardWithMultisig config received envs logs0 lastB).logs.head? =
      some terminalFailEntry ∧
    (∀ (envs2 : Nat → AttemptEnv) (logs2 : List LogEntry) (lastB2 : Option Int),
      (forwardWithMultisig config received envs2 logs2 lastB2).invocations ≤ 3) := by
  obtain ⟨a1, a2, a3, a4, a5, a6⟩ :=
    forward_three_failures config received envs logs0 lastB msg0 msg1 msg2 h0 h1 h2
  refine ⟨a1, a2, a3, a4, a5, a6, ?_⟩
  intro envs2 logs2 lastB2
  have hle := forwardLoop_invocations_le config received envs2 maxRetries 0
    createForwardingSteps logs2 lastB2 0 [] []
  unfold forwardWithMultisig
  simpa [maxRetries] using hle

theorem retry_policy_three_attempts_witness :
    (forwardWithMultisig sampleConfig 10 (fun _ => envBalanceNone) [] none).outcome =
      .failedAll ∧
    (forwardWithMultisig sampleConfig 10 (fun _ => envBalanceNone) [] none).attemptsCounter
      = 3 ∧
    (forwardWithMultisig sampleConfig 10 (fun _ => envBalanceNone) [] none).invocations
      = 3 ∧
    (forwardWithMultisig sampleConfig 10 (fun _ => envBalanceNone) [] none).delays =
      [retryDelay, retryDelay] ∧
    (forwardWithMultisig sampleConfig 10 (fun _ => envBalanceNone)
        [] none).attemptFailureLogs =
      [attemptFailEntry 1, attemptFailEntry 2, attemptFailEntry 3] ∧
    (forwardWithMultisig sampleConfig 10 (fun _ => envBalanceNone) [] none).logs.head? =
      some terminalFailEntry ∧
    (∀ (envs2 : Nat → AttemptEnv) (logs2 : List LogEntry) (lastB2 : Option Int),
      (forwardWithMultisig sampleConfig 10 envs2 logs2 lastB2).invocations ≤ 3) :=
  retry_policy_three_attempts sampleConfig 10 (fun _ => envBalanceNone) [] none
    "Failed to get current balance" "Failed to get current balance"
    "Failed to get current balance" (by decide) (by decide) (by decide)

/-- C10: a balance re-read of exactly 0 (like a `null` from a failed query) is
falsy in `if (!currentBalance)`, so the attempt throws "Failed to get current
balance" — an attempt failure that consumes a retry — and a run whose reads
all return 0 or `null` ends in the terminal error state after 3 counted
attempts, never in the insufficient-funds warning no-op. -/
theorem zero_balance_read_attempt_failure (config : ForwardingConfig) (received : Int)
    (envs : Nat → AttemptEnv) (logs0 : List LogEntry) (lastB : Option Int)
    (h : ∀ i, i < 3 →
      (envs i).currentBalanceRead = none ∨ (envs i).currentBalanceRead = some 0) :
    (∀ (env : AttemptEnv) (attempts : Nat) (steps0 : List ForwardingStep)
        (logs1 : List LogEntry) (lastB1 : Option Int),
      env.currentBalanceRead = some 0 →
      (attemptOnce config received attempts env steps0 logs1 lastB1).outcome =
        .failure "Failed to get current balance") ∧
    (forwardWithMultisig config received envs logs0 lastB).outcome = .failedAll ∧
    (forwardWithMultisig config received envs logs0 lastB).outcome ≠ .insufficient ∧
    (forwardWithMultisig config received envs logs0 lastB).attemptsCounter = 3 ∧
    (forwardWithMultisig config received envs logs0 lastB).attemptFailureLogs =
      [attemptFailEntry 1, attemptFailEntry 2, attemptFailEntry 3] := by
  have hfail : ∀ i, i < 3 →
      attemptOutcomeOf config received (envs i) = .failure "Failed to get current balance" := by
    intro i hi
    exact attemptOnce_balance_falsy config received 0 (envs i) createForwardingSteps
      [] none (h i hi)
  obtain ⟨a1, a2, a3, a4, a5, a6⟩ :=
    forward_three_failures config received envs logs0 lastB _ _ _
      (hfail 0 (by norm_num)) (hfail 1 (by norm_num)) (hfail 2 (by norm_num))
  refine ⟨?_, a1, ?_, a2, a5⟩
  · intro env attempts steps0 logs1 lastB1 h0
    exact attemptOnce_balance_falsy config received attempts env steps0 logs1 lastB1
      (Or.inr h0)
  · rw [a1]
    decide

set_option maxHeartbeats 4000000 in
/-- C9: the validate step computes the signature count as the signature
payload length divided by the fixed single-signature length 65 (real
division); that count reaches the threshold 2 exactly when the payload length
is at least 130, and in an attempt where every other interaction succeeds,
the attempt succeeds (reaching and completing the broadcast step) iff the
length is ≥ 130, while a shorter payload makes the attempt fail. -/
theorem validate_signature_count_threshold (config : ForwardingConfig) (received : Int)
    (attempts : Nat) (env : AttemptEnv) (logs0 : List LogEntry) (lastB : Option Int)
    (bal : Int) (len : Nat)
    (h1 : env.currentBalanceRead = some bal) (h2 : bal ≠ 0)
    (h3 : ¬ (min received (max 0 (bal - config.feeReserveSun)) ≤ 0))
    (h4 : env.createOk = true) (h5 : env.sign1Ok = true)
    (h6 : env.signResult = some len)
    (h7 : env.broadcastResult = true)
    (h8 : ∃ after, env.balanceAfterRead = some after) :
    ((2 : ℚ) ≤ (len : ℚ) / 65 ↔ 130 ≤ len) ∧
    (130 ≤ len →
      (attemptOnce config received attempts env createForwardingSteps logs0 lastB).outcome
        = .success ∧
      stepStatusOf (attemptOnce config received attempts env createForwardingSteps
          logs0 lastB).steps "broadcast" = some .completed) ∧
    (len < 130 →
      (attemptOnce config received attempts env createForwardingSteps logs0 lastB).outcome
        = .failure "Invalid signature format - transaction may not be properly signed") := by
  obtain ⟨after, h8⟩ := h8
  have hq : (2 : ℚ) ≤ (len : ℚ) / 65 ↔ 130 ≤ len := by
    rw [le_div_iff₀ (show (0 : ℚ) < 65 by norm_num)]
    constructor
    · intro hx
      have hc : (130 : ℚ) ≤ (len : ℚ) := by linarith
      exact_mod_cast hc
    · intro hx
      have hc : (130 : ℚ) ≤ (len : ℚ) := by exact_mod_cast hx
      linarith
  refine ⟨hq, ?_, ?_⟩
  · intro h130
    have hnlt : ¬ (len < 130) := not_lt.mpr h130
    have hcq : (2 : ℚ) ≤ (len : ℚ) / 65 := hq.mpr h130
    constructor
    · simp [attemptOnce, h1, h2, h3, h4, h5, h6, h7, h8, hnlt, hcq]
    · simp [attemptOnce, h1, h2, h3, h4, h5, h6, h7, h8, hnlt, hcq,
        stepStatusOf, updateStep, createForwardingSteps]
  · intro hlt
    simp [attemptOnce, h1, h2, h3, h4, h5, h6, hlt]

theorem validate_signature_count_threshold_witness :
    ((2 : ℚ) ≤ ((130 : Nat) : ℚ) / 65 ↔ 130 ≤ 130) ∧
    (130 ≤ 130 →
      (attemptOnce sampleConfig 300 0 envAllGood createForwardingSteps [] none).outcome
        = .success ∧
      stepStatusOf (attemptOnce sampleConfig 300 0 envAllGood createForwardingSteps
          [] none).steps "broadcast" = some .completed) ∧
    ((130 : Nat) < 130 →
      (attemptOnce sampleConfig 300 0 envAllGood createForwardingSteps [] none).outcome
        = .failure "Invalid signature format - transaction may not be properly signed") :=
  validate_signature_count_threshold sampleConfig 300 0 envAllGood [] none 1000000 130
    (by decide) (by decide) (by decide) (by decide) (by decide) (by decide) (by decide)
    ⟨699000, by decide⟩

theorem zero_balance_read_attempt_failure_witness :
    (∀ (env : AttemptEnv) (attempts : Nat) (steps0 : List ForwardingStep)
        (logs1 : List LogEntry) (lastB1 : Option Int),
      env.currentBalanceRead = some 0 →
      (attemptOnce sampleConfig 10 attempts env steps0 logs1 lastB1).outcome =
        .failure "Failed to get current balance") ∧
    (forwardWithMultisig sampleConfig 10 (fun _ => envBalanceZero) [] none).outcome =
      .failedAll ∧
    (forwardWithMultisig sampleConfig 10 (fun _ => envBalanceZero) [] none).outcome ≠
      .insufficient ∧
    (forwardWithMultisig sampleConfig 10 (fun _ => envBalanceZero) [] none).attemptsCounter
      = 3 ∧
    (forwardWithMultisig sampleConfig 10 (fun _ => envBalanceZero)
        [] none).attemptFailureLogs =
      [attemptFailEntry 1, attemptFailEntry 2, attemptFailEntry 3] :=
  zero_balance_read_attempt_failure sampleConfig 10 (fun _ => envBalanceZero) [] none
    (fun _ _ => Or.inr rfl)

end Forwarder
